import Mathlib

/-!
Verification of the intent-confirmation engine and the ERC-4626 vault-discovery
scanner of the `ethglobal-cannes` repository.

The development shallowly embeds the Python sources:

* `src/agent_special.py` — the uAgents message-based agent
  (`handle_user_message`, `handle_confirmation`, `validate_action_parameters`,
  `process_critical_action`, hash-derived action ids);
* `src/ai_agent_special/agent_special.py` — the uAgents REST agent
  (`handle_talk_request`, `handle_confirmation_request`, `process_action`,
  random action ids, bounded conversation history);
* `src/ai_agent_special/standalone_api.py` — the FastAPI standalone agent
  (`chat`, `confirm_action`, `process_crypto_action`, presence-only validation,
  HTTP-exception error reporting);
* `src/scan_vault.py` — the scanner probes (`check_erc4626_methods`,
  `get_additional_vault_info`).

External collaborators (the LLM, the executor bridge, the chain RPC) enter the
model as explicit parameters: the classifier outcome is an `LLMOutcome` value,
the executor outcome an `ExecOutcome` value, and a contract probe a function
from method name to optional result.  Python floats are modelled by `ℚ`,
Python dicts by association lists (or by total functions for the per-user
history map), and raised exceptions by explicit error constructors
(`HTTPResult.httpError`).
-/

namespace FlowAgent

/-- The closed set of action kinds (`ActionType` enum; the standalone variant
has no `vault` member but the constructor set is shared here). -/
inductive ActionType where
  | stake
  | swap
  | balance
  | vault
  | conversation
  | unknown
deriving DecidableEq, Repr

/-- The string value of an `ActionType` member (`ActionType.STAKE.value` etc.). -/
def actionTypeValue : ActionType → String
  | .stake => "stake"
  | .swap => "swap"
  | .balance => "balance"
  | .vault => "vault"
  | .conversation => "conversation"
  | .unknown => "unknown"

/-- `ActionType(s)` in Python: the member whose value is `s`, raising
(`none`) otherwise. -/
def actionTypeOfString (s : String) : Option ActionType :=
  if s = "stake" then some .stake
  else if s = "swap" then some .swap
  else if s = "balance" then some .balance
  else if s = "vault" then some .vault
  else if s = "conversation" then some .conversation
  else if s = "unknown" then some .unknown
  else none

/-- The parameter dictionary of a parsed action, restricted to the keys the
engine reads.  A missing key is `none`; amounts are rationals (Python floats),
token and validator names strings. -/
structure Params where
  amount : Option ℚ := none
  validator : Option String := none
  from_token : Option String := none
  to_token : Option String := none
  wallet_address : Option String := none
  vault_action : Option String := none
  shares : Option ℚ := none
deriving DecidableEq, Repr

/-- `ParsedAction`: the classifier's result. -/
structure ParsedAction where
  action_type : ActionType
  confidence : ℚ
  parameters : Params
  raw_message : String
  user_response : String := ""
deriving DecidableEq, Repr

/-- `ActionResponse`: the structured response model shared by all engine
variants. -/
structure ActionResponse where
  success : Bool
  message : String
  function_call : Option String := none
  function_result : Option String := none
  requires_confirmation : Bool := false
  action_id : Option String := none
deriving DecidableEq, Repr

/-- One `(role, content)` turn of a conversation history. -/
structure Turn where
  role : String
  content : String
deriving DecidableEq, Repr

/-- Python truthiness of an optional number: `not amount` holds for a missing
key and for `0`/`0.0`. -/
def qFalsy : Option ℚ → Bool
  | none => true
  | some q => q == 0

/-- `amount <= 0` on a present optional number (evaluated only after the
falsy test in the sources, so the `none` branch is arbitrary). -/
def qNonpos : Option ℚ → Bool
  | none => false
  | some q => decide (q ≤ 0)

/-- Python truthiness of an optional string: `not s` holds for a missing key
and for the empty string. -/
def sFalsy : Option String → Bool
  | none => true
  | some s => s == ""

/-- Python `a or b` on strings: `b` when `a` is empty. -/
def pyOr (a b : String) : String :=
  if a = "" then b else a

/-- Rendering of an optional rational into a message (`f"{params.get(...)}"`;
a missing key prints as `None`). -/
def optQStr : Option ℚ → String
  | none => "None"
  | some q => toString q

/-- Rendering of an optional string into a message. -/
def optSStr : Option String → String
  | none => "None"
  | some s => s

/-- Association-list lookup, the model of `dict[k]` / `dict.get(k)`. -/
def dictLookup {β : Type} : List (String × β) → String → Option β
  | [], _ => none
  | (k', v) :: r, k => if k' = k then some v else dictLookup r k

/-- Removal of a key, the model of `dict.pop(k)` on a present key. -/
def dictErase {β : Type} : List (String × β) → String → List (String × β)
  | [], _ => []
  | (k', v) :: r, k => if k' = k then dictErase r k else (k', v) :: dictErase r k

/-- Key assignment, the model of `dict[k] = v`. -/
def dictInsert {β : Type} (l : List (String × β)) (k : String) (v : β) :
    List (String × β) :=
  dictErase l k ++ [(k, v)]

/-- The pending-action registry (`pending_actions` dict). -/
abbrev Registry := List (String × ParsedAction)

/-- `history[-n:]`: the last `n` elements of a list. -/
def lastN {α : Type} (n : Nat) (l : List α) : List α :=
  l.drop (l.length - n)

/-- `MAX_HISTORY_LENGTH` of the REST agent (the standalone API uses the
literal `10`). -/
def MAX_HISTORY_LENGTH : Nat := 10

/-! ### Action-id generation -/

/-- Lowercase hexadecimal digit character, as produced by `bytes.hex()`. -/
def hexChar (n : Nat) : Char :=
  if n < 10 then Char.ofNat (48 + n) else Char.ofNat (87 + n)

/-- Decoder of a hexadecimal digit character (specification-side inverse of
`hexChar`, used only to prove injectivity). -/
def fromHexChar (c : Char) : Nat :=
  if 97 ≤ c.toNat then c.toNat - 87 else c.toNat - 48

/-- The `k` low-order hexadecimal digits of `n`, most significant first. -/
def hexDigitsAux : Nat → Nat → List Char
  | 0, _ => []
  | k + 1, n => hexDigitsAux k (n / 16) ++ [hexChar (n % 16)]

/-- `os.urandom(4).hex()`: the 8-hex-digit rendering of a 32-bit random
draw `r`. -/
def urandomHex (r : Nat) : String :=
  String.mk (hexDigitsAux 8 r)

/-- Numeric decoding of a hex-character list (specification-side inverse of
`hexDigitsAux`). -/
def decodeHex (cs : List Char) : Nat :=
  cs.foldl (fun acc c => acc * 16 + fromHexChar c) 0

/-- Action-id generation of the REST and standalone agents:
`f"{user_id}_{os.urandom(4).hex()}"`, with the 4 random bytes passed in as
the number `r < 2^32`. -/
def gen_action_id (user_id : String) (r : Nat) : String :=
  user_id ++ "_" ++ urandomHex r

/-- Action-id generation of the uAgents message agent
(`src/agent_special.py`):
`f"{user_id}_{action.action_type.value}_{hash(action.raw_message)}"`,
with `hash(action.raw_message)` — a value that is fixed for a given string
within one interpreter process — passed in as `hashRaw`. -/
def gen_action_id_det (user_id : String) (t : ActionType) (hashRaw : Int) :
    String :=
  user_id ++ "_" ++ actionTypeValue t ++ "_" ++ toString hashRaw

/-! ### `src/agent_special.py`: the uAgents message agent -/

/-- `validate_action_parameters` of `src/agent_special.py`: full policy —
positive amount and validator for stake; positive amount, both tokens and
distinct tokens for swap.  `none` means the parameters pass. -/
def validate_action_parameters (a : ParsedAction) : Option String :=
  if a.action_type = .stake then
    if qFalsy a.parameters.amount || qNonpos a.parameters.amount then
      some "Le montant pour le staking doit être positif. Pouvez-vous préciser combien vous voulez staker ?"
    else if sFalsy a.parameters.validator then
      some "Il me faut le nom du validator pour le staking. Quel validator préférez-vous ?"
    else none
  else if a.action_type = .swap then
    if qFalsy a.parameters.amount || qNonpos a.parameters.amount then
      some "Le montant pour l’échange doit être positif. Combien voulez-vous échanger ?"
    else if sFalsy a.parameters.from_token || sFalsy a.parameters.to_token then
      some "Il me faut les deux tokens pour l’échange. De quel token vers quel token voulez-vous échanger ?"
    else if a.parameters.from_token = a.parameters.to_token then
      some "Vous ne pouvez pas échanger un token contre lui-même ! 😄"
    else none
  else none

/-- `validate_wallet_address` of `src/agent_special.py`. -/
def validate_wallet_address (address : String) : Bool :=
  address.startsWith "0x" && decide (8 ≤ address.length)

/-- `generate_confirmation_message` of `src/agent_special.py`. -/
def generate_confirmation_message (a : ParsedAction) : String :=
  if a.action_type = .stake then
    "⚠️ Confirmation requise :\nStaking de " ++ optQStr a.parameters.amount ++
      " FLOW avec le validator " ++ optSStr a.parameters.validator ++
      ".\n\nVoulez-vous continuer ? (Répondez ’oui’ ou ’non’)"
  else if a.action_type = .swap then
    "⚠️ Confirmation requise :\nÉchange de " ++ optQStr a.parameters.amount ++
      " " ++ optSStr a.parameters.from_token ++ " contre " ++
      optSStr a.parameters.to_token ++
      ".\n\nVoulez-vous continuer ? (Répondez ’oui’ ou ’non’)"
  else "⚠️ Confirmez-vous cette action ?"

/-- `generate_function_call` of `src/agent_special.py`. -/
def generate_function_call (a : ParsedAction) : String :=
  if a.action_type = .stake then
    "stake_tokens(" ++ optQStr a.parameters.amount ++ ", \"" ++
      optSStr a.parameters.validator ++ "\")"
  else if a.action_type = .swap then
    "swap_tokens(\"" ++ optSStr a.parameters.from_token ++ "\", \"" ++
      optSStr a.parameters.to_token ++ "\", " ++ optQStr a.parameters.amount ++ ")"
  else "Erreur dans la génération de l’appel de fonction."

/-- `process_balance_action` of `src/agent_special.py`. -/
def process_balance_action (a : ParsedAction) : ActionResponse :=
  match a.parameters.wallet_address with
  | none =>
    { success := false
      message := "Il me faut une adresse wallet pour vérifier le solde. Pouvez-vous me donner une adresse valide (qui commence par 0x) ?" }
  | some wallet_address =>
    if !validate_wallet_address wallet_address then
      { success := false
        message := "Cette adresse wallet ne semble pas valide. Elle doit commencer par ’0x’. Pouvez-vous vérifier ?" }
    else
      { success := true
        message := "Je vérifie le solde de votre wallet " ++
          String.mk (wallet_address.data.take 8) ++ "... 💰"
        function_call := some ("check_balance(\"" ++ wallet_address ++ "\")") }

/-- `process_critical_action` of `src/agent_special.py`: validate, then
register the action under a hash-derived id and ask for confirmation. -/
def process_critical_action (pending : Registry) (a : ParsedAction)
    (user_id : String) (hashRaw : Int) : ActionResponse × Registry :=
  match validate_action_parameters a with
  | some validation_error =>
    ({ success := false, message := validation_error }, pending)
  | none =>
    let action_id := gen_action_id_det user_id a.action_type hashRaw
    let full_message := a.user_response ++ "\n\n" ++ generate_confirmation_message a
    ({ success := true
       message := full_message
       requires_confirmation := true
       action_id := some action_id },
     dictInsert pending action_id a)

/-- `process_action` of `src/agent_special.py`: dispatch by kind. -/
def process_action_msg (pending : Registry) (a : ParsedAction)
    (user_id : String) (hashRaw : Int) : ActionResponse × Registry :=
  if a.action_type = .balance then
    (process_balance_action a, pending)
  else if a.action_type = .stake ∨ a.action_type = .swap then
    process_critical_action pending a user_id hashRaw
  else
    ({ success := false, message := "Type d’action non supporté." }, pending)

/-- `handle_user_message` of `src/agent_special.py`: route the classified
action (conversation / unknown / low confidence → conversational reply,
otherwise action processing). -/
def handle_user_message (pending : Registry) (parsed : ParsedAction)
    (user_id : String) (hashRaw : Int) : ActionResponse × Registry :=
  if parsed.action_type = .conversation then
    ({ success := true, message := parsed.user_response }, pending)
  else if parsed.action_type = .unknown then
    ({ success := false
       message := pyOr parsed.user_response
         "Je n’ai pas pu comprendre votre demande. Pouvez-vous reformuler ?" },
     pending)
  else if parsed.confidence < 7/10 then
    ({ success := false
       message := pyOr parsed.user_response
         "Je ne suis pas sûr de comprendre votre demande. Pouvez-vous être plus précis ?" },
     pending)
  else
    process_action_msg pending parsed user_id hashRaw

/-- `handle_confirmation` of `src/agent_special.py`: unknown id → failure;
otherwise consume the entry, with or without generating the function call. -/
def handle_confirmation (pending : Registry) (action_id : String)
    (confirmed : Bool) : ActionResponse × Registry :=
  match dictLookup pending action_id with
  | none =>
    ({ success := false, message := "Aucune action en attente à confirmer." },
     pending)
  | some action =>
    if confirmed then
      ({ success := true
         message := "Parfait ! Votre action a été confirmée et est en cours d’exécution. 🚀"
         function_call := some (generate_function_call action) },
       dictErase pending action_id)
    else
      ({ success := true
         message := "Pas de problème, j’ai annulé cette action. N’hésitez pas si vous avez besoin d’autre chose !" },
       dictErase pending action_id)

/-! ### `src/ai_agent_special/agent_special.py`: the uAgents REST agent -/

/-- Outcome of the executor collaborator (`CryptoFunctions` bridge call)
during a confirmed execution: a success dict, a failure dict, or a raised
exception. -/
inductive ExecOutcome where
  | ok (message : String) (transaction_hash : Option String)
  | failed (message : String)
  | raised (err : String)
deriving DecidableEq, Repr

/-- State of the REST agent: the pending registry and the per-user
conversation history map. -/
structure AgentState where
  pending_actions : Registry
  conversation_histories : String → List Turn

/-- `validate_action_parameters` of the REST agent: the body is a stub that
returns `None` for every action (its comment claims "unchanged validation
logic"). -/
def validate_action_parameters_rest (_ : ParsedAction) : Option String :=
  none

/-- `generate_confirmation_message` of the REST agent. -/
def generate_confirmation_message_rest (a : ParsedAction) : String :=
  if a.action_type = .stake then
    "⚠️ Confirmation required: Stake " ++ optQStr a.parameters.amount ++
      " FLOW with the " ++ optSStr a.parameters.validator ++
      " validator? Respond to the /confirm endpoint."
  else "Do you confirm this action? Respond to the /confirm endpoint."

/-- `generate_function_call` of the REST agent. -/
def generate_function_call_rest (a : ParsedAction) : String :=
  if a.action_type = .stake then
    "stake_tokens(" ++ optQStr a.parameters.amount ++ ", \"" ++
      optSStr a.parameters.validator ++ "\")"
  else if a.action_type = .balance then
    "check_balance(\"" ++ optSStr a.parameters.wallet_address ++ "\")"
  else "unknown_function()"

/-- `process_action` of the REST agent: validate (a no-op here), answer
balance checks directly, and otherwise register a pending action under a
fresh random id. -/
def process_action (pending : Registry) (a : ParsedAction)
    (user_id : String) (r : Nat) : ActionResponse × Registry :=
  match validate_action_parameters_rest a with
  | some validation_error =>
    ({ success := false, message := validation_error }, pending)
  | none =>
    if a.action_type = .balance then
      ({ success := true
         message := a.user_response
         function_call := some (generate_function_call_rest a) }, pending)
    else
      let action_id := gen_action_id user_id r
      let full_message := a.user_response ++ "\n\n" ++
        generate_confirmation_message_rest a
      ({ success := true
         message := full_message
         requires_confirmation := true
         action_id := some action_id },
       dictInsert pending action_id a)

/-- The routing block of `handle_talk_request`: critical kinds
(stake/swap/vault) always go to `process_action`; conversation, unknown or
confidence below `0.3` get the conversational reply; everything else goes to
`process_action`. -/
def talkRoute (pending : Registry) (parsed : ParsedAction)
    (user_id : String) (r : Nat) : ActionResponse × Registry :=
  if parsed.action_type ∈ [ActionType.stake, ActionType.swap, ActionType.vault] then
    process_action pending parsed user_id r
  else if parsed.action_type ∈ [ActionType.conversation, ActionType.unknown] ∨
      parsed.confidence < 3/10 then
    ({ success := true, message := parsed.user_response }, pending)
  else
    process_action pending parsed user_id r

/-- `handle_talk_request` of the REST agent: append the user turn (truncating
to the last 10), route via `talkRoute` on the classifier output `parsed`,
append the assistant turn and truncate again. -/
def handle_talk_request (s : AgentState) (user_id content : String)
    (parsed : ParsedAction) (r : Nat) : ActionResponse × AgentState :=
  let history := s.conversation_histories user_id
  let history := lastN MAX_HISTORY_LENGTH (history ++ [⟨"user", content⟩])
  let rp := talkRoute s.pending_actions parsed user_id r
  let history := lastN MAX_HISTORY_LENGTH (history ++ [⟨"assistant", rp.1.message⟩])
  (rp.1,
   { pending_actions := rp.2
     conversation_histories := fun u =>
       if u = user_id then history else s.conversation_histories u })

/-- The response composed by `handle_confirmation_request` once the pending
entry has been popped: cancellation acknowledgement, or the fold of the
executor outcome (success with optional transaction id, failure, or the
caught exception).  The per-kind executor dispatch itself is the external
collaborator, summarised by `exec`. -/
def confirmResponse (action : ParsedAction) (confirmed : Bool)
    (exec : ExecOutcome) : ActionResponse :=
  if confirmed then
    match exec with
    | .ok msg tx =>
      { success := true
        message := "🎉 Excellent! " ++ msg ++
          (match tx with
           | some h => "\n\n📋 Transaction ID: `" ++ h ++ "`"
           | none => "")
        function_call := some (generate_function_call_rest action)
        function_result := some msg }
    | .failed msg =>
      { success := false, message := "❌ " ++ msg }
    | .raised err =>
      { success := false
        message := "❌ Technical error during execution: " ++ err }
  else
    { success := true
      message := "Action cancelled. Feel free to ask if you need anything else!" }

/-- `handle_confirmation_request` of the REST agent: pop the id from the
registry first (absent → "not found" failure, no state change); then build
the response from the executor outcome and append the confirmation turns to
the history. -/
def handle_confirmation_request (s : AgentState) (user_id action_id : String)
    (confirmed : Bool) (exec : ExecOutcome) : ActionResponse × AgentState :=
  match dictLookup s.pending_actions action_id with
  | none =>
    ({ success := false, message := "Action not found or expired." }, s)
  | some action =>
    let response := confirmResponse action confirmed exec
    let history := s.conversation_histories user_id
    let history := lastN MAX_HISTORY_LENGTH (history ++
      [⟨"user", if confirmed then "yes" else "no"⟩,
       ⟨"assistant", response.message⟩])
    (response,
     { pending_actions := dictErase s.pending_actions action_id
       conversation_histories := fun u =>
         if u = user_id then history else s.conversation_histories u })

/-- An externally triggered operation of the REST engine, with the
collaborator outcomes (classifier result, random draw, executor outcome)
recorded in the event. -/
inductive EngineEvent where
  | talk (user_id content : String) (parsed : ParsedAction) (r : Nat)
  | confirmation (user_id action_id : String) (confirmed : Bool) (exec : ExecOutcome)

/-- State transition of one engine event. -/
def stepEngine (s : AgentState) : EngineEvent → AgentState
  | .talk u c p r => (handle_talk_request s u c p r).2
  | .confirmation u id b e => (handle_confirmation_request s u id b e).2

/-- The turns an event appends to a given user's history (empty for other
users, and empty for a confirmation of an unknown action id). -/
def eventTurns (s : AgentState) (ev : EngineEvent) (v : String) : List Turn :=
  match ev with
  | .talk u c p r =>
    if v = u then
      [⟨"user", c⟩, ⟨"assistant", (handle_talk_request s u c p r).1.message⟩]
    else []
  | .confirmation u id b e =>
    if v = u then
      match dictLookup s.pending_actions id with
      | none => []
      | some _ =>
        [⟨"user", if b then "yes" else "no"⟩,
         ⟨"assistant", (handle_confirmation_request s u id b e).1.message⟩]
    else []

/-- Run of the REST engine over an event list, instrumented with the
untruncated per-user log of all appended turns. -/
def runLog (s : AgentState) (log : String → List Turn) :
    List EngineEvent → AgentState × (String → List Turn)
  | [] => (s, log)
  | ev :: evs =>
    runLog (stepEngine s ev) (fun v => log v ++ eventTurns s ev v) evs

/-- The engine's initial state: no pending action, no history. -/
def initState : AgentState :=
  { pending_actions := [], conversation_histories := fun _ => [] }

/-! ### `src/ai_agent_special/standalone_api.py`: the FastAPI agent -/

/-- Result of a FastAPI endpoint call: a returned value, or a raised
`HTTPException` with its status code and detail. -/
inductive HTTPResult (α : Type) where
  | ok (value : α)
  | httpError (status : Nat) (detail : String)
deriving DecidableEq, Repr

/-- State of the standalone API: the module-level `pending_actions` and
`conversation_histories` dicts. -/
structure StandaloneState where
  pending_actions : Registry
  conversation_histories : String → List Turn

/-- `validate_action_parameters` of the standalone API: presence-only checks
(`not parameters.get(...)`); the empty string means the parameters pass. -/
def validate_action_parameters_standalone (a : ParsedAction) : String :=
  if a.action_type = .stake then
    if qFalsy a.parameters.amount then "❌ Montant manquant pour le staking"
    else if sFalsy a.parameters.validator then "❌ Validateur manquant pour le staking"
    else ""
  else if a.action_type = .swap then
    if qFalsy a.parameters.amount then "❌ Montant manquant pour le swap"
    else if sFalsy a.parameters.from_token then "❌ Token source manquant pour le swap"
    else if sFalsy a.parameters.to_token then "❌ Token destination manquant pour le swap"
    else ""
  else ""

/-- `generate_confirmation_message` of the standalone API. -/
def generate_confirmation_message_standalone (a : ParsedAction) : String :=
  if a.action_type = .stake then
    "⚠️ Confirmation requise : Staker " ++ optQStr a.parameters.amount ++
      " FLOW avec le validateur " ++ optSStr a.parameters.validator ++ " ? (oui/non)"
  else if a.action_type = .swap then
    "⚠️ Confirmation requise : Échanger " ++ optQStr a.parameters.amount ++
      " " ++ optSStr a.parameters.from_token ++ " contre " ++
      optSStr a.parameters.to_token ++ " ? (oui/non)"
  else "⚠️ Confirmez-vous cette action ? (oui/non)"

/-- `generate_function_call` of the standalone API. -/
def generate_function_call_standalone (a : ParsedAction) : String :=
  if a.action_type = .stake then
    "stake_tokens(" ++ optQStr a.parameters.amount ++ ", \"" ++
      optSStr a.parameters.validator ++ "\")"
  else if a.action_type = .swap then
    "swap_tokens(\"" ++ optSStr a.parameters.from_token ++ "\", \"" ++
      optSStr a.parameters.to_token ++ "\", " ++ optQStr a.parameters.amount ++ ")"
  else if a.action_type = .balance then
    "check_balance(\"" ++ (a.parameters.wallet_address.getD "user_wallet") ++ "\")"
  else "fonction_inconnue()"

/-- `process_crypto_action` of the standalone API: validate (presence only),
answer balance checks directly, otherwise register a pending action under a
fresh random id. -/
def process_crypto_action (pending : Registry) (a : ParsedAction)
    (user_id : String) (r : Nat) : ActionResponse × Registry :=
  let validation_error := validate_action_parameters_standalone a
  if validation_error ≠ "" then
    ({ success := false, message := validation_error }, pending)
  else if a.action_type = .balance then
    let fc := generate_function_call_standalone a
    ({ success := true
       message := a.user_response ++ "\n\nAppel de fonction : `" ++ fc ++ "`"
       function_call := some fc
       function_result := some "\x7b\"balance\": \"1234.56 FLOW\", \"success\": true\x7d" },
     pending)
  else
    let action_id := gen_action_id user_id r
    ({ success := true
       message := a.user_response ++ "\n\n" ++
         generate_confirmation_message_standalone a
       requires_confirmation := true
       action_id := some action_id },
     dictInsert pending action_id a)

/-- `chat` of the standalone API: append the user turn (keeping the last 10),
route conversationally when the kind is conversation/unknown or the
confidence is below `0.7`, otherwise process the crypto action; append the
assistant turn and truncate again. -/
def chat (s : StandaloneState) (content user_id : String)
    (parsed : ParsedAction) (r : Nat) : HTTPResult ActionResponse × StandaloneState :=
  let history := s.conversation_histories user_id
  let history := lastN 10 (history ++ [⟨"user", content⟩])
  let rp :=
    if parsed.action_type ∈ [ActionType.conversation, ActionType.unknown] ∨
        parsed.confidence < 7/10 then
      (({ success := true, message := parsed.user_response } : ActionResponse),
       s.pending_actions)
    else
      process_crypto_action s.pending_actions parsed user_id r
  let history := lastN 10 (history ++ [⟨"assistant", rp.1.message⟩])
  (.ok rp.1,
   { pending_actions := rp.2
     conversation_histories := fun u =>
       if u = user_id then history else s.conversation_histories u })

/-- `confirm_action` of the standalone API: pop the id; when absent, raise
`HTTPException(404)` — the state is left unchanged but the caller receives a
raised fault, not a structured response. -/
def confirm_action (s : StandaloneState) (action_id : String)
    (confirmed : Bool) (user_id : String) :
    HTTPResult ActionResponse × StandaloneState :=
  match dictLookup s.pending_actions action_id with
  | none => (.httpError 404 "Action non trouvée ou expirée", s)
  | some action =>
    let response : ActionResponse :=
      if confirmed then
        let fc := generate_function_call_standalone action
        { success := true
          message := "Parfait ! Votre action ’" ++ actionTypeValue action.action_type ++
            "’ a été confirmée et est en cours d’exécution.\n\nAppel de fonction : `" ++
            fc ++ "`\n\nSimulation d’exécution réussie !"
          function_call := some fc
          function_result := some "\x7b\"success\": true, \"message\": \"Simulation réussie\"\x7d" }
      else
        { success := true
          message := "Action annulée. N’hésitez pas si vous avez besoin d’autre chose !" }
    let history := s.conversation_histories user_id
    let history := lastN 10 (history ++
      [⟨"user", if confirmed then "oui" else "non"⟩,
       ⟨"assistant", response.message⟩])
    (.ok response,
     { pending_actions := dictErase s.pending_actions action_id
       conversation_histories := fun u =>
         if u = user_id then history else s.conversation_histories u })

/-! ### The classifier collaborator (`FlowCryptoAI.analyze_message`) -/

/-- Outcome of one LLM call as seen by `analyze_message`: a raised transport
error, an empty `content`, content that is not valid JSON, or a parsed JSON
object with its optional fields (`dict.get` semantics). -/
inductive LLMOutcome where
  | transportError (err : String)
  | emptyContent
  | malformedJson (raw : String)
  | parsedJson (raw : String) (action_type : Option String)
      (confidence : Option ℚ) (parameters : Option Params)
      (user_response : Option String)

/-- The apologetic fallback reply of the REST agent's classifier. -/
def fallbackReply : String :=
  "I didn’t quite understand. Could you rephrase? I can help with staking, swapping, or checking a balance."

/-- `FlowCryptoAI.analyze_message` of the REST agent: empty history is
answered directly; otherwise every failure mode of the LLM call — transport
error, empty content, malformed JSON, or an action-type string outside the
enum (a raised `ValueError`) — is converted to the fallback Conversation
intent with confidence `0.5`, empty parameters and the apologetic reply. -/
def analyze_message (history : List Turn) (llm : LLMOutcome) :
    ParsedAction × String :=
  match history.getLast? with
  | none => ({ action_type := .unknown, confidence := 0, parameters := {},
               raw_message := "", user_response := "Empty history." }, "")
  | some last =>
    let fallback : ParsedAction × String :=
      ({ action_type := .conversation
         confidence := 1/2
         parameters := {}
         raw_message := last.content
         user_response := fallbackReply }, "")
    match llm with
    | .transportError _ => fallback
    | .emptyContent => fallback
    | .malformedJson _ => fallback
    | .parsedJson raw at? conf? params? ur? =>
      match actionTypeOfString (at?.getD "unknown") with
      | none => fallback
      | some t =>
        ({ action_type := t
           confidence := conf?.getD 0
           parameters := params?.getD {}
           raw_message := last.content
           user_response := ur?.getD "" }, raw)

/-- The LLM-call outcomes that the sources treat as failures (every raised or
malformed case, including an unknown action-type string which raises
`ValueError` inside the `try` block). -/
def llmFailure : LLMOutcome → Prop
  | .transportError _ => True
  | .emptyContent => True
  | .malformedJson _ => True
  | .parsedJson _ at? _ _ _ => actionTypeOfString (at?.getD "unknown") = none

/-! ### `src/scan_vault.py`: the vault-discovery probes -/

/-- A value returned by a contract read method: an unsigned integer, a
string, or (for derived metrics added later) a rational. -/
inductive VaultValue where
  | num (v : Nat)
  | str (v : String)
  | rat (v : ℚ)
deriving DecidableEq, Repr

/-- The "critical" ERC-4626 read methods probed first. -/
def critical_methods : List String :=
  ["asset", "totalAssets", "convertToAssets", "convertToShares"]

/-- The informational ERC-20 read methods probed second. -/
def erc20_methods : List String :=
  ["name", "symbol", "decimals", "totalSupply"]

/-- One probing loop of `check_erc4626_methods`: each method is called
independently (`call m = none` models a revert/exception); successes are
recorded in the `vault_info` dict, failures in the `failed_methods` list. -/
def probeLoop (call : String → Option VaultValue) :
    List String → List (String × VaultValue) × List String →
    List (String × VaultValue) × List String
  | [], acc => acc
  | m :: ms, acc =>
    probeLoop call ms
      (match call m with
       | some v => (acc.1 ++ [(m, v)], acc.2)
       | none => (acc.1, acc.2 ++ [m]))

/-- `check_erc4626_methods`: probe the critical then the ERC-20 methods and
accept the candidate iff both `asset` and `totalAssets` are in the collected
`vault_info`. -/
def check_erc4626_methods (call : String → Option VaultValue) :
    Bool × List (String × VaultValue) × List String :=
  let acc := probeLoop call critical_methods ([], [])
  let acc := probeLoop call erc20_methods acc
  let is_valid := (dictLookup acc.1 "asset").isSome &&
    (dictLookup acc.1 "totalAssets").isSome
  (is_valid, acc.1, acc.2)

/-- First stage of `get_additional_vault_info`: add `share_price` (and the
18-decimal formatted totals) only when both totals are present in
`vault_info` and `totalSupply > 0`.  A non-numeric total makes the source
body raise, which the enclosing `try` converts into "no field added". -/
def addShareMetrics (vault_info additional_info : List (String × VaultValue)) :
    List (String × VaultValue) :=
  match dictLookup vault_info "totalAssets", dictLookup vault_info "totalSupply" with
  | some (.num total_assets), some (.num total_supply) =>
    if 0 < total_supply then
      additional_info ++
        [("share_price", .rat ((total_assets : ℚ) / (total_supply : ℚ))),
         ("total_assets_formatted", .rat ((total_assets : ℚ) / (10 ^ 18 : ℚ))),
         ("total_supply_formatted", .rat ((total_supply : ℚ) / (10 ^ 18 : ℚ)))]
    else additional_info
  | _, _ => additional_info

/-- Second stage of `get_additional_vault_info`: best-effort probe of the
underlying asset contract for its name/symbol/decimals (`asset_probe`,
all-or-nothing as in the single `try` block of the source). -/
def addAssetMetrics (vault_info additional_info : List (String × VaultValue))
    (asset_probe : Option (String × String × Nat)) :
    List (String × VaultValue) :=
  match dictLookup vault_info "asset", asset_probe with
  | some _, some (asset_name, asset_symbol, asset_decimals) =>
    additional_info ++
      [("asset_name", .str asset_name),
       ("asset_symbol", .str asset_symbol),
       ("asset_decimals", .num asset_decimals)]
  | _, _ => additional_info

/-- `get_additional_vault_info`: starting from the collected `vault_info`,
apply the two enrichment stages in the order of the source. -/
def get_additional_vault_info (vault_info : List (String × VaultValue))
    (asset_probe : Option (String × String × Nat)) :
    List (String × VaultValue) :=
  addAssetMetrics vault_info (addShareMetrics vault_info vault_info) asset_probe

/-! ### Concrete inputs used by witnesses and counterexamples -/

/-- A well-formed stake action used as a concrete input. -/
def demoStake : ParsedAction :=
  { action_type := .stake
    confidence := 1
    parameters := { amount := some 150, validator := some "blocto" }
    raw_message := "stake 150 FLOW with blocto"
    user_response := "Sure, staking 150 FLOW with blocto." }

/-- REST-agent state holding one pending `demoStake` under id `"act1"`. -/
def demoAgentState : AgentState :=
  { pending_actions := [("act1", demoStake)]
    conversation_histories := fun _ => [] }

/-- Standalone-API state holding one pending `demoStake` under id `"act1"`. -/
def demoStandaloneState : StandaloneState :=
  { pending_actions := [("act1", demoStake)]
    conversation_histories := fun _ => [] }

/-- The empty standalone-API state. -/
def emptyStandaloneState : StandaloneState :=
  { pending_actions := [], conversation_histories := fun _ => [] }

/-- A crypto-action intent whose confidence `0.1` is below every configured
threshold. -/
def lowConfStake : ParsedAction :=
  { action_type := .stake
    confidence := 1/10
    parameters := { amount := some 150, validator := some "blocto" }
    raw_message := "stake 150 FLOW with blocto"
    user_response := "I will prepare the staking of 150 FLOW." }

/-- A swap intent whose source and destination tokens coincide. -/
def selfSwap : ParsedAction :=
  { action_type := .swap
    confidence := 1
    parameters := { amount := some 100, from_token := some "flow", to_token := some "flow" }
    raw_message := "swap 100 flow to flow"
    user_response := "Preparing your swap." }

/-- A stake intent carrying a negative amount. -/
def negStake : ParsedAction :=
  { action_type := .stake
    confidence := 1
    parameters := { amount := some (-5), validator := some "blocto" }
    raw_message := "stake -5 FLOW with blocto"
    user_response := "Preparing your staking." }


/-- A probe outcome where the two mandatory reads succeed, `totalSupply`
succeeds with a positive value, and the optional `name`/`symbol` reads
revert. -/
def demoVaultCall : String → Option VaultValue := fun m =>
  if m = "asset" then some (.str "0x00000000000000000000000000000000000000aa")
  else if m = "totalAssets" then some (.num 1000)
  else if m = "totalSupply" then some (.num 500)
  else none

/-- A probe outcome for a vault whose `totalSupply` is zero. -/
def demoZeroSupplyCall : String → Option VaultValue := fun m =>
  if m = "asset" then some (.str "0x00000000000000000000000000000000000000aa")
  else if m = "totalAssets" then some (.num 1000)
  else if m = "totalSupply" then some (.num 0)
  else none


end FlowAgent

namespace FlowAgent

/-! ### Helper lemmas: association lists -/

theorem dictLookup_append {β : Type} (l₁ l₂ : List (String × β)) (k : String) :
    dictLookup (l₁ ++ l₂) k =
      match dictLookup l₁ k with
      | some v => some v
      | none => dictLookup l₂ k := by
  induction l₁ with
  | nil => simp [dictLookup]
  | cons p r ih =>
    obtain ⟨k', v⟩ := p
    by_cases h : k' = k <;> simp [dictLookup, h, ih]

theorem dictLookup_erase_self {β : Type} (l : List (String × β)) (k : String) :
    dictLookup (dictErase l k) k = none := by
  induction l with
  | nil => rfl
  | cons p r ih =>
    obtain ⟨k', v⟩ := p
    by_cases h : k' = k <;> simp [dictErase, dictLookup, h, ih]

theorem dictLookup_insert_self {β : Type} (l : List (String × β)) (k : String) (v : β) :
    dictLookup (dictInsert l k v) k = some v := by
  rw [dictInsert, dictLookup_append, dictLookup_erase_self]
  simp [dictLookup]

/-! ### Helper lemmas: history truncation -/

theorem lastN_length_le {α : Type} (n : Nat) (l : List α) :
    (lastN n l).length ≤ n := by
  simp only [lastN, List.length_drop]
  omega

theorem lastN_append_lastN {α : Type} (n : Nat) (xs ys : List α) :
    lastN n (lastN n xs ++ ys) = lastN n (xs ++ ys) := by
  by_cases h : xs.length ≤ n
  · have hz : xs.length - n = 0 := by omega
    simp only [lastN, hz, List.drop_zero]
  · simp only [lastN, List.length_append, List.length_drop]
    rw [← List.drop_append_of_le_length (by omega : xs.length - n ≤ xs.length),
      List.drop_drop]
    congr 1
    omega

end FlowAgent

namespace FlowAgent

/-! ### Helper lemmas: scanner probing -/

theorem dictLookup_append_single_ne {β : Type} (l : List (String × β))
    (m k : String) (v : β) (h : m ≠ k) :
    dictLookup (l ++ [(m, v)]) k = dictLookup l k := by
  rw [dictLookup_append]
  cases hl : dictLookup l k with
  | some w => rfl
  | none => simp [dictLookup, h]

theorem probeLoop_lookup_not_mem (call : String → Option VaultValue)
    (ms : List String) (acc : List (String × VaultValue) × List String)
    (k : String) (h : k ∉ ms) :
    dictLookup (probeLoop call ms acc).1 k = dictLookup acc.1 k := by
  induction ms generalizing acc with
  | nil => rfl
  | cons m ms ih =>
    have hmk : m ≠ k := fun e => h (e ▸ List.mem_cons_self m ms)
    have hms : k ∉ ms := fun e => h (List.mem_cons_of_mem m e)
    cases hc : call m with
    | some v =>
      simp only [probeLoop, hc]
      rw [ih _ hms]
      exact dictLookup_append_single_ne _ _ _ _ hmk
    | none =>
      simp only [probeLoop, hc]
      exact ih _ hms

theorem probeLoop_lookup_mem (call : String → Option VaultValue)
    (ms : List String) (acc : List (String × VaultValue) × List String)
    (k : String) (hnd : ms.Nodup) (hmem : k ∈ ms)
    (hacc : dictLookup acc.1 k = none) :
    dictLookup (probeLoop call ms acc).1 k = call k := by
  induction ms generalizing acc with
  | nil => cases hmem
  | cons m ms ih =>
    rcases List.mem_cons.mp hmem with rfl | hk
    · have hnotin : k ∉ ms := (List.nodup_cons.mp hnd).1
      cases hc : call k with
      | some v =>
        simp only [probeLoop, hc]
        rw [probeLoop_lookup_not_mem _ _ _ _ hnotin, dictLookup_append, hacc]
        simp [dictLookup]
      | none =>
        simp only [probeLoop, hc]
        rw [probeLoop_lookup_not_mem _ _ _ _ hnotin]
        exact hacc
    · have hne : m ≠ k := by
        rintro rfl
        exact (List.nodup_cons.mp hnd).1 hk
      cases hc : call m with
      | some v =>
        simp only [probeLoop, hc]
        exact ih _ (List.nodup_cons.mp hnd).2 hk
          ((dictLookup_append_single_ne _ _ _ _ hne).trans hacc)
      | none =>
        simp only [probeLoop, hc]
        exact ih _ (List.nodup_cons.mp hnd).2 hk hacc

theorem check_lookup_of_mem (call : String → Option VaultValue) (k : String)
    (hc : k ∈ critical_methods) :
    dictLookup (check_erc4626_methods call).2.1 k = call k := by
  have h20 : k ∉ erc20_methods := by
    fin_cases hc <;> decide
  simp only [check_erc4626_methods]
  rw [probeLoop_lookup_not_mem _ _ _ _ h20]
  exact probeLoop_lookup_mem call critical_methods ([], []) k (by decide) hc rfl

theorem check_lookup_of_mem20 (call : String → Option VaultValue) (k : String)
    (hc : k ∈ erc20_methods) :
    dictLookup (check_erc4626_methods call).2.1 k = call k := by
  have hcm : k ∉ critical_methods := by
    fin_cases hc <;> decide
  simp only [check_erc4626_methods]
  refine probeLoop_lookup_mem call erc20_methods _ k (by decide) hc ?_
  rw [probeLoop_lookup_not_mem _ _ _ _ hcm]
  rfl

theorem check_lookup_of_not_mem (call : String → Option VaultValue) (k : String)
    (hc : k ∉ critical_methods) (h20 : k ∉ erc20_methods) :
    dictLookup (check_erc4626_methods call).2.1 k = none := by
  simp only [check_erc4626_methods]
  rw [probeLoop_lookup_not_mem _ _ _ _ h20, probeLoop_lookup_not_mem _ _ _ _ hc]
  rfl

end FlowAgent

namespace FlowAgent

/-! ### Helper lemmas: hexadecimal action ids -/

theorem fromHexChar_hexChar : ∀ n < 16, fromHexChar (hexChar n) = n := by
  decide

theorem decodeHex_hexDigitsAux (k n : Nat) :
    decodeHex (hexDigitsAux k n) = n % 16 ^ k := by
  induction k generalizing n with
  | zero => simp [hexDigitsAux, decodeHex, Nat.mod_one]
  | succ k ih =>
    have hstep : decodeHex (hexDigitsAux k (n / 16) ++ [hexChar (n % 16)]) =
        decodeHex (hexDigitsAux k (n / 16)) * 16 + fromHexChar (hexChar (n % 16)) := by
      simp [decodeHex, List.foldl_append]
    rw [hexDigitsAux, hstep, ih, fromHexChar_hexChar _ (Nat.mod_lt n (by omega)),
      pow_succ, Nat.mul_comm (16 ^ k) 16, Nat.mod_mul]
    ring

theorem urandomHex_inj (r₁ r₂ : Nat) (h₁ : r₁ < 2 ^ 32) (h₂ : r₂ < 2 ^ 32)
    (h : urandomHex r₁ = urandomHex r₂) : r₁ = r₂ := by
  have hd : hexDigitsAux 8 r₁ = hexDigitsAux 8 r₂ := by
    injection h
  have := congrArg decodeHex hd
  rw [decodeHex_hexDigitsAux, decodeHex_hexDigitsAux] at this
  have e₁ : r₁ % 16 ^ 8 = r₁ := Nat.mod_eq_of_lt (by norm_num at h₁ ⊢; omega)
  have e₂ : r₂ % 16 ^ 8 = r₂ := Nat.mod_eq_of_lt (by norm_num at h₂ ⊢; omega)
  rwa [e₁, e₂] at this

theorem gen_action_id_inj (u : String) (r₁ r₂ : Nat)
    (h₁ : r₁ < 2 ^ 32) (h₂ : r₂ < 2 ^ 32)
    (h : gen_action_id u r₁ = gen_action_id u r₂) : r₁ = r₂ := by
  refine urandomHex_inj r₁ r₂ h₁ h₂ ?_
  have hd := congrArg String.data h
  simp only [gen_action_id, String.data_append] at hd
  exact String.ext (List.append_cancel_left hd)

end FlowAgent

namespace FlowAgent

/-! ### C1: at-most-once consumption of a pending action id -/

/-- C1: in both confirmation handlers (the REST agent's
`handle_confirmation_request` and the message agent's `handle_confirmation`),
the first confirm or cancel of a pending action id removes the entry from the
registry, and a subsequent confirm or cancel of the same id returns the
"not found" failure (`success = false`) and changes nothing — never a second
success. -/
theorem claim1_at_most_once (s : AgentState) (u₁ u₂ id : String)
    (a : ParsedAction) (b₁ b₂ : Bool) (e₁ e₂ : ExecOutcome)
    (hpend : dictLookup s.pending_actions id = some a) :
    dictLookup ((handle_confirmation_request s u₁ id b₁ e₁).2).pending_actions id = none ∧
    (handle_confirmation_request (handle_confirmation_request s u₁ id b₁ e₁).2
        u₂ id b₂ e₂).1 =
      { success := false, message := "Action not found or expired." } ∧
    (handle_confirmation_request (handle_confirmation_request s u₁ id b₁ e₁).2
        u₂ id b₂ e₂).2 =
      (handle_confirmation_request s u₁ id b₁ e₁).2 ∧
    (∀ (pend : Registry) (a' : ParsedAction) (b b' : Bool),
      dictLookup pend id = some a' →
        dictLookup (handle_confirmation pend id b).2 id = none ∧
        (handle_confirmation (handle_confirmation pend id b).2 id b').1.success = false ∧
        (handle_confirmation (handle_confirmation pend id b).2 id b').1.message =
          "Aucune action en attente à confirmer.") := by
  have h1 : dictLookup ((handle_confirmation_request s u₁ id b₁ e₁).2).pending_actions id = none := by
    simp only [handle_confirmation_request, hpend]
    exact dictLookup_erase_self _ _
  refine ⟨h1, ?_, ?_, ?_⟩
  · rw [handle_confirmation_request, h1]
  · rw [handle_confirmation_request, h1]
  · intro pend a' b b' hp
    have h2 : dictLookup (handle_confirmation pend id b).2 id = none := by
      rw [handle_confirmation, hp]
      cases b <;> simp [dictLookup_erase_self]
    refine ⟨h2, ?_, ?_⟩ <;> rw [handle_confirmation, h2]

/-- Witness for C1 at a concrete state: the registry of `demoAgentState`
holds `"act1"`, and the theorem's conclusions evaluate there. -/
theorem claim1_at_most_once_witness :
    dictLookup demoAgentState.pending_actions "act1" = some demoStake ∧
    dictLookup ((handle_confirmation_request demoAgentState "u1" "act1" true
        (.ok "staked" (some "0xabc"))).2).pending_actions "act1" = none :=
  ⟨rfl, (claim1_at_most_once demoAgentState "u1" "u2" "act1" demoStake true true
    (.ok "staked" (some "0xabc")) (.ok "staked" (some "0xabc")) rfl).1⟩

/-! ### C10: the pending entry is consumed before the executor runs -/

/-- C10: `handle_confirmation_request` pops the registry entry before
dispatching to the executor: for every executor outcome — success, failure or
a raised exception — the post-state registry is exactly the old registry with
the id removed, so the id can no longer be confirmed; the standalone
`confirm_action` pops in the same way. -/
theorem claim10_consume_before_execute (s : AgentState) (u id : String)
    (a : ParsedAction) (e e' : ExecOutcome) (b' : Bool)
    (hpend : dictLookup s.pending_actions id = some a) :
    (handle_confirmation_request s u id true e).2.pending_actions =
      dictErase s.pending_actions id ∧
    dictLookup ((handle_confirmation_request s u id true e).2).pending_actions id = none ∧
    (handle_confirmation_request (handle_confirmation_request s u id true e).2
        u id b' e').1.success = false ∧
    (∀ (st : StandaloneState) (c : Bool) (uid : String),
      dictLookup st.pending_actions id = some a →
        dictLookup ((confirm_action st id c uid).2).pending_actions id = none) := by
  have h1 : (handle_confirmation_request s u id true e).2.pending_actions =
      dictErase s.pending_actions id := by
    simp only [handle_confirmation_request, hpend]
  have h2 : dictLookup ((handle_confirmation_request s u id true e).2).pending_actions id = none := by
    rw [h1]; exact dictLookup_erase_self _ _
  refine ⟨h1, h2, ?_, ?_⟩
  · rw [handle_confirmation_request, h2]
  · intro st c uid hp
    simp only [confirm_action, hp]
    exact dictLookup_erase_self _ _

/-- Witness for C10 at a concrete state with a raised executor error. -/
theorem claim10_consume_before_execute_witness :
    dictLookup demoAgentState.pending_actions "act1" = some demoStake ∧
    dictLookup ((handle_confirmation_request demoAgentState "u1" "act1" true
        (.raised "bridge timeout")).2).pending_actions "act1" = none :=
  ⟨rfl, (claim10_consume_before_execute demoAgentState "u1" "act1" demoStake
    (.raised "bridge timeout") (.raised "bridge timeout") true rfl).2.1⟩

/-! ### C4: structured responses versus raised HTTP faults -/

/-- C4 counterexample: the claim says an unknown action id always produces a
structured "not found" failure response and that no internal failure reaches
the caller as a raised fault such as an HTTP 404; but the standalone API's
`confirm_action` raises `HTTPException(status_code=404)` for an unknown id
instead of returning a structured `ActionResponse`. -/
theorem claim4_structured_cex :
    (confirm_action emptyStandaloneState "missing_id" true "u1").1 =
      HTTPResult.httpError 404 "Action non trouvée ou expirée" := by
  rfl

/-- C4 (amended): the REST agent's `handle_confirmation_request` does satisfy
the claim — an unknown or already-consumed id yields the structured
`success = false` "not found" response with no state change, and a raised
executor error is folded into a structured failure response; only the
standalone FastAPI variant converts the unknown-id case into a raised
HTTP 404 fault. -/
theorem claim4_structured_amended (s : AgentState) (u id : String)
    (b : Bool) (e : ExecOutcome) :
    (dictLookup s.pending_actions id = none →
      (handle_confirmation_request s u id b e).1 =
        { success := false, message := "Action not found or expired." } ∧
      (handle_confirmation_request s u id b e).2 = s) ∧
    (∀ (a : ParsedAction) (err : String),
      dictLookup s.pending_actions id = some a →
        (handle_confirmation_request s u id true (.raised err)).1 =
          { success := false
            message := "❌ Technical error during execution: " ++ err }) := by
  constructor
  · intro habs
    rw [handle_confirmation_request, habs]
    exact ⟨rfl, rfl⟩
  · intro a err hp
    simp only [handle_confirmation_request, hp]
    rfl

/-- Witness for C4 (amended) at a concrete empty state. -/
theorem claim4_structured_amended_witness :
    dictLookup (initState.pending_actions) "nope" = none ∧
    (handle_confirmation_request initState "u1" "nope" true (.ok "x" none)).1 =
      { success := false, message := "Action not found or expired." } :=
  ⟨rfl, ((claim4_structured_amended initState "u1" "nope" true (.ok "x" none)).1 rfl).1⟩

end FlowAgent

namespace FlowAgent

/-! ### C2: confidence gating of crypto-action intents -/

/-- C2 counterexample: the claim says every crypto-action intent below the
acceptance threshold is routed to the conversational path with
`requires_confirmation = false` and no pending action; but the REST agent's
`handle_talk_request` routes Stake/Swap/Vault intents to `process_action`
before any confidence test — a stake intent with confidence `0.1` (below both
the `0.3` and `0.7` thresholds) yields `requires_confirmation = true` and a
new pending-registry entry. -/
theorem claim2_low_confidence_cex :
    (1 : ℚ)/10 < 3/10 ∧ (1 : ℚ)/10 < 7/10 ∧
    (handle_talk_request initState "u1" "stake 150 FLOW with blocto"
        lowConfStake 0).1.requires_confirmation = true ∧
    dictLookup ((handle_talk_request initState "u1" "stake 150 FLOW with blocto"
        lowConfStake 0).2).pending_actions (gen_action_id "u1" 0) =
      some lowConfStake := by
  refine ⟨by norm_num, by norm_num, rfl, ?_⟩
  have hred : (handle_talk_request initState "u1" "stake 150 FLOW with blocto"
      lowConfStake 0).2.pending_actions =
      dictInsert [] (gen_action_id "u1" 0) lowConfStake := rfl
  rw [hred]
  exact dictLookup_insert_self _ _ _

/-- C2 (amended): the gating holds in the standalone API's `chat` (threshold
`0.7`) and in the message agent's `handle_user_message` (threshold `0.7`):
a Stake/Swap/Balance intent below the threshold gets the conversational
reply, `requires_confirmation = false`, and the pending registry is
unchanged.  In the REST agent's `handle_talk_request` only Balance intents
are confidence-gated (threshold `0.3`); Stake/Swap/Vault always go to action
processing. -/
theorem claim2_low_confidence_amended (sst : StandaloneState) (reg : Registry)
    (st : AgentState) (u c : String) (r : Nat) (h : Int) (p : ParsedAction)
    (hkind : p.action_type = .stake ∨ p.action_type = .swap ∨
      p.action_type = .balance)
    (hconf : p.confidence < 7/10) :
    ((chat sst c u p r).1 =
        .ok { success := true, message := p.user_response } ∧
      (chat sst c u p r).2.pending_actions = sst.pending_actions) ∧
    ((handle_user_message reg p u h).1.requires_confirmation = false ∧
      (handle_user_message reg p u h).1.action_id = none ∧
      (handle_user_message reg p u h).2 = reg) ∧
    (p.action_type = .balance → p.confidence < 3/10 →
      (handle_talk_request st u c p r).1 =
        { success := true, message := p.user_response } ∧
      (handle_talk_request st u c p r).2.pending_actions =
        st.pending_actions) := by
  refine ⟨?_, ?_, ?_⟩
  · rw [chat]
    rw [if_pos (Or.inr hconf)]
    exact ⟨rfl, rfl⟩
  · rcases hkind with hk | hk | hk <;>
      · rw [handle_user_message]
        rw [if_neg (by rw [hk]; decide), if_neg (by rw [hk]; decide),
          if_pos hconf]
        exact ⟨rfl, rfl, rfl⟩
  · intro hb h3
    rw [handle_talk_request, talkRoute]
    rw [if_neg (by rw [hb]; decide), if_pos (Or.inr h3)]
    exact ⟨rfl, rfl⟩

/-- Witness for C2 (amended) at the concrete low-confidence stake intent. -/
theorem claim2_low_confidence_amended_witness :
    (lowConfStake.action_type = .stake ∨ lowConfStake.action_type = .swap ∨
      lowConfStake.action_type = .balance) ∧
    lowConfStake.confidence < 7/10 ∧
    (handle_user_message [] lowConfStake "u1" 0).1.requires_confirmation = false :=
  ⟨Or.inl rfl, by norm_num [lowConfStake],
    ((claim2_low_confidence_amended emptyStandaloneState [] initState "u1" "hi"
      0 0 lowConfStake (Or.inl rfl) (by norm_num [lowConfStake])).2.1).1⟩

/-! ### C3: parameter-validation completeness -/

/-- C3 counterexample: the claim says a Swap with `from_token = to_token` and
a Stake with `amount ≤ 0` are always rejected before a pending action is
created; but the standalone API's validator only tests key presence — it
accepts the self-swap and the negative stake and registers a pending action —
and the REST agent's validator accepts everything. -/
theorem claim3_validation_cex :
    validate_action_parameters_standalone selfSwap = "" ∧
    (process_crypto_action [] selfSwap "u1" 0).1.requires_confirmation = true ∧
    dictLookup ((process_crypto_action [] selfSwap "u1" 0).2)
      (gen_action_id "u1" 0) = some selfSwap ∧
    validate_action_parameters_standalone negStake = "" ∧
    (process_crypto_action [] negStake "u1" 0).1.requires_confirmation = true ∧
    validate_action_parameters_rest negStake = none ∧
    dictLookup ((process_action [] negStake "u1" 0).2)
      (gen_action_id "u1" 0) = some negStake := by
  refine ⟨rfl, rfl, ?_, rfl, rfl, rfl, ?_⟩
  · have hred : (process_crypto_action [] selfSwap "u1" 0).2 =
        dictInsert [] (gen_action_id "u1" 0) selfSwap := rfl
    rw [hred]
    exact dictLookup_insert_self _ _ _
  · have hred : (process_action [] negStake "u1" 0).2 =
        dictInsert [] (gen_action_id "u1" 0) negStake := rfl
    rw [hred]
    exact dictLookup_insert_self _ _ _

/-- C3 (amended): the full validation policy holds in the message agent
(`src/agent_special.py`): a Stake intent with a missing or non-positive
amount or a missing/empty validator, and a Swap intent whose `from_token`
equals its `to_token` (including both missing), are rejected by
`validate_action_parameters` with a failure message, and
`process_critical_action` then returns `success = false`,
`requires_confirmation = false` and leaves the registry unchanged — the
rejection is a returned value, never a raised exception.  The standalone
variant checks key presence only and the REST variant does not validate. -/
theorem claim3_validation_amended (a : ParsedAction) (pending : Registry)
    (u : String) (h : Int)
    (hyp : (a.action_type = .stake ∧
            (a.parameters.amount = none ∨
             (∃ q, a.parameters.amount = some q ∧ q ≤ 0) ∨
             a.parameters.validator = none ∨
             a.parameters.validator = some "")) ∨
           (a.action_type = .swap ∧
            a.parameters.from_token = a.parameters.to_token)) :
    (validate_action_parameters a).isSome = true ∧
    (process_critical_action pending a u h).1.success = false ∧
    (process_critical_action pending a u h).1.requires_confirmation = false ∧
    (process_critical_action pending a u h).2 = pending := by
  have hv : (validate_action_parameters a).isSome = true := by
    rcases hyp with ⟨hst, hbad⟩ | ⟨hsw, heq⟩
    · rw [validate_action_parameters, if_pos hst]
      rcases hbad with hm | ⟨q, hq0, hle⟩ | hval | hval
      · rw [if_pos (by simp [qFalsy, hm])]; rfl
      · rw [if_pos (by simp [qNonpos, hq0, hle])]; rfl
      · by_cases hc : (qFalsy a.parameters.amount || qNonpos a.parameters.amount) = true
        · rw [if_pos hc]; rfl
        · rw [if_neg hc, if_pos (by simp [sFalsy, hval])]; rfl
      · by_cases hc : (qFalsy a.parameters.amount || qNonpos a.parameters.amount) = true
        · rw [if_pos hc]; rfl
        · rw [if_neg hc, if_pos (by simp [sFalsy, hval])]; rfl
    · rw [validate_action_parameters, if_neg (by rw [hsw]; decide), if_pos hsw]
      by_cases hc : (qFalsy a.parameters.amount || qNonpos a.parameters.amount) = true
      · rw [if_pos hc]; rfl
      · rw [if_neg hc]
        by_cases ht : (sFalsy a.parameters.from_token || sFalsy a.parameters.to_token) = true
        · rw [if_pos ht]; rfl
        · rw [if_neg ht, if_pos heq]; rfl
  rcases hval : validate_action_parameters a with _ | msg
  · rw [hval] at hv; cases hv
  · rw [process_critical_action, hval]
    exact ⟨rfl, rfl, rfl, rfl⟩

/-- Witness for C3 (amended) at a stake intent with no amount. -/
theorem claim3_validation_amended_witness :
    (validate_action_parameters
      { action_type := .stake, confidence := 1, parameters := {},
        raw_message := "stake", user_response := "ok" }).isSome = true :=
  (claim3_validation_amended
    { action_type := .stake, confidence := 1, parameters := {},
      raw_message := "stake", user_response := "ok" }
    [] "u1" 0 (Or.inl ⟨rfl, Or.inl rfl⟩)).1

end FlowAgent

namespace FlowAgent

/-! ### C5: bounded, FIFO-truncated conversation history -/

theorem talk_step_histories (s : AgentState) (uid c : String)
    (p : ParsedAction) (r : Nat) (v : String) :
    (handle_talk_request s uid c p r).2.conversation_histories v =
      if v = uid then
        lastN MAX_HISTORY_LENGTH (lastN MAX_HISTORY_LENGTH
          (s.conversation_histories uid ++ [⟨"user", c⟩]) ++
          [⟨"assistant", (handle_talk_request s uid c p r).1.message⟩])
      else s.conversation_histories v := rfl

theorem confirmation_step_histories (s : AgentState) (uid id : String)
    (b : Bool) (e : ExecOutcome) (v : String) :
    (handle_confirmation_request s uid id b e).2.conversation_histories v =
      match dictLookup s.pending_actions id with
      | none => s.conversation_histories v
      | some _ =>
        if v = uid then
          lastN MAX_HISTORY_LENGTH (s.conversation_histories uid ++
            [⟨"user", if b then "yes" else "no"⟩,
             ⟨"assistant", (handle_confirmation_request s uid id b e).1.message⟩])
        else s.conversation_histories v := by
  cases h : dictLookup s.pending_actions id <;>
    simp only [handle_confirmation_request, h]

theorem runLog_invariant (events : List EngineEvent) (s : AgentState)
    (log : String → List Turn)
    (hinv : ∀ v, s.conversation_histories v =
      lastN MAX_HISTORY_LENGTH (log v)) :
    ∀ v, (runLog s log events).1.conversation_histories v =
      lastN MAX_HISTORY_LENGTH ((runLog s log events).2 v) := by
  induction events generalizing s log with
  | nil => exact hinv
  | cons ev evs ih =>
    refine ih _ _ ?_
    intro v
    cases ev with
    | talk uid c p r =>
      show (handle_talk_request s uid c p r).2.conversation_histories v = _
      rw [talk_step_histories]
      by_cases hvu : v = uid
      · rw [if_pos hvu, eventTurns, if_pos hvu, hvu, hinv uid,
          lastN_append_lastN, List.append_assoc, lastN_append_lastN]
        rfl
      · rw [if_neg hvu, eventTurns, if_neg hvu, List.append_nil, hinv v]
    | confirmation uid id b e =>
      show (handle_confirmation_request s uid id b e).2.conversation_histories v = _
      rw [confirmation_step_histories]
      cases hload : dictLookup s.pending_actions id with
      | none =>
        simp only [eventTurns, hload]
        rw [hinv v]
        congr 1
        rw [ite_self, List.append_nil]
      | some a =>
        simp only [eventTurns, hload]
        by_cases hvu : v = uid
        · rw [if_pos hvu, if_pos hvu, hvu, hinv uid, lastN_append_lastN]
        · rw [if_neg hvu, if_neg hvu, List.append_nil, hinv v]

/-- C5: for every sequence of engine operations and every user, the stored
conversation history is exactly the 10-turn suffix (FIFO truncation, original
order) of the full log of turns appended for that user, and its length never
exceeds the configured maximum of 10. -/
theorem claim5_history_bound (events : List EngineEvent) (u : String) :
    (runLog initState (fun _ => []) events).1.conversation_histories u =
      lastN MAX_HISTORY_LENGTH ((runLog initState (fun _ => []) events).2 u) ∧
    ((runLog initState (fun _ => []) events).1.conversation_histories u).length ≤ 10 := by
  have h := runLog_invariant events initState (fun _ => []) (fun v => rfl) u
  exact ⟨h, h ▸ lastN_length_le _ _⟩

end FlowAgent

namespace FlowAgent

/-! ### C6: vault acceptance depends exactly on `asset` and `totalAssets` -/

/-- C6: `check_erc4626_methods` accepts a candidate iff both the `asset` and
the `totalAssets` probes succeed; the failure of any other probed method
never causes rejection — it only leaves the corresponding key absent from
the collected record. -/
theorem claim6_vault_acceptance (call : String → Option VaultValue) :
    (check_erc4626_methods call).1 =
      ((call "asset").isSome && (call "totalAssets").isSome) ∧
    (∀ m, call m = none →
      dictLookup (check_erc4626_methods call).2.1 m = none) := by
  constructor
  · have h : (check_erc4626_methods call).1 =
        ((dictLookup (check_erc4626_methods call).2.1 "asset").isSome &&
         (dictLookup (check_erc4626_methods call).2.1 "totalAssets").isSome) := rfl
    rw [h, check_lookup_of_mem call "asset" (by decide),
      check_lookup_of_mem call "totalAssets" (by decide)]
  · intro m hm
    by_cases hc : m ∈ critical_methods
    · rw [check_lookup_of_mem call m hc]; exact hm
    · by_cases h20 : m ∈ erc20_methods
      · rw [check_lookup_of_mem20 call m h20]; exact hm
      · exact check_lookup_of_not_mem call m hc h20

/-- Witness for C6: a contract whose `name`/`symbol` probes revert is still
accepted, and the failed methods are absent from its record. -/
theorem claim6_vault_acceptance_witness :
    (check_erc4626_methods demoVaultCall).1 = true ∧
    dictLookup (check_erc4626_methods demoVaultCall).2.1 "name" = none :=
  ⟨by rw [(claim6_vault_acceptance demoVaultCall).1]; rfl,
   (claim6_vault_acceptance demoVaultCall).2 "name" rfl⟩

/-! ### C7: `share_price` only with a positive `totalSupply` -/

/-- C7: in the record produced by `get_additional_vault_info` from a probe
outcome, a `share_price` entry exists only when the `totalSupply` probe
succeeded with a positive value — and then it equals
`totalAssets / totalSupply`; when `totalSupply` failed or returned `0` the
key is absent, so the division is never evaluated with a zero divisor. -/
theorem lookup_addAssetMetrics_sp (vi ai : List (String × VaultValue))
    (ap : Option (String × String × Nat)) :
    dictLookup (addAssetMetrics vi ai ap) "share_price" =
      dictLookup ai "share_price" := by
  unfold addAssetMetrics
  split
  · rw [dictLookup_append]
    cases h : dictLookup ai "share_price" <;> simp [dictLookup]
  · rfl

theorem lookup_addShareMetrics_sp (vi ai : List (String × VaultValue))
    (hai : dictLookup ai "share_price" = none) :
    dictLookup (addShareMetrics vi ai) "share_price" =
      (match dictLookup vi "totalAssets", dictLookup vi "totalSupply" with
       | some (.num total_assets), some (.num total_supply) =>
         if 0 < total_supply then
           some (.rat ((total_assets : ℚ) / (total_supply : ℚ)))
         else none
       | _, _ => none) := by
  unfold addShareMetrics
  split
  · rename_i total_assets total_supply heqA heqB
    by_cases hpos : 0 < total_supply
    · rw [if_pos hpos, if_pos hpos, dictLookup_append, hai]
      simp [dictLookup]
    · rw [if_neg hpos, if_neg hpos]
      exact hai
  · exact hai

/-- C7: in the record produced by `get_additional_vault_info` from a probe
outcome, a `share_price` entry exists only when the `totalSupply` probe
succeeded with a positive value — and then it equals
`totalAssets / totalSupply`; when `totalSupply` failed or returned `0` the
key is absent, so the division is never evaluated with a zero divisor. -/
theorem claim7_share_price (call : String → Option VaultValue)
    (asset_probe : Option (String × String × Nat)) :
    (∀ v, dictLookup (get_additional_vault_info
        (check_erc4626_methods call).2.1 asset_probe) "share_price" = some v →
      ∃ ta ts : Nat, call "totalAssets" = some (.num ta) ∧
        call "totalSupply" = some (.num ts) ∧ 0 < ts ∧
        v = .rat ((ta : ℚ) / (ts : ℚ))) ∧
    ((call "totalSupply" = none ∨ call "totalSupply" = some (.num 0)) →
      dictLookup (get_additional_vault_info
        (check_erc4626_methods call).2.1 asset_probe) "share_price" = none) := by
  have hta : dictLookup (check_erc4626_methods call).2.1 "totalAssets" =
      call "totalAssets" := check_lookup_of_mem call "totalAssets" (by decide)
  have hts : dictLookup (check_erc4626_methods call).2.1 "totalSupply" =
      call "totalSupply" := check_lookup_of_mem20 call "totalSupply" (by decide)
  have hsp : dictLookup (check_erc4626_methods call).2.1 "share_price" = none :=
    check_lookup_of_not_mem call "share_price" (by decide) (by decide)
  have hmain : dictLookup (get_additional_vault_info
      (check_erc4626_methods call).2.1 asset_probe) "share_price" =
      (match call "totalAssets", call "totalSupply" with
       | some (.num total_assets), some (.num total_supply) =>
         if 0 < total_supply then
           some (VaultValue.rat ((total_assets : ℚ) / (total_supply : ℚ)))
         else none
       | _, _ => none) := by
    rw [get_additional_vault_info, lookup_addAssetMetrics_sp,
      lookup_addShareMetrics_sp _ _ hsp, hta, hts]
  constructor
  · intro v hv
    rw [hmain] at hv
    cases hA : call "totalAssets" with
    | none => rw [hA] at hv; dsimp only at hv; cases hv
    | some va =>
      cases va with
      | str sv => rw [hA] at hv; dsimp only at hv; cases hv
      | rat rv => rw [hA] at hv; dsimp only at hv; cases hv
      | num ta =>
        cases hB : call "totalSupply" with
        | none => rw [hA, hB] at hv; dsimp only at hv; cases hv
        | some vb =>
          cases vb with
          | str sv => rw [hA, hB] at hv; dsimp only at hv; cases hv
          | rat rv => rw [hA, hB] at hv; dsimp only at hv; cases hv
          | num ts =>
            rw [hA, hB] at hv
            dsimp only at hv
            by_cases hpos : 0 < ts
            · rw [if_pos hpos] at hv
              exact ⟨ta, ts, rfl, rfl, hpos, (Option.some_inj.mp hv).symm⟩
            · rw [if_neg hpos] at hv
              cases hv
  · intro hzero
    rw [hmain]
    rcases hzero with hz | hz <;> rw [hz] <;>
      cases hA : call "totalAssets" with
      | none => rfl
      | some va => cases va <;> simp

/-- Witness for C7 at the zero-supply probe outcome: no `share_price` key. -/
theorem claim7_share_price_witness :
    demoZeroSupplyCall "totalSupply" = some (.num 0) ∧
    dictLookup (get_additional_vault_info
      (check_erc4626_methods demoZeroSupplyCall).2.1 none) "share_price" = none :=
  ⟨rfl, (claim7_share_price demoZeroSupplyCall none).2 (Or.inr rfl)⟩

end FlowAgent

namespace FlowAgent

/-! ### C8: classifier failures degrade to the fallback intent -/

/-- C8: for a non-empty history, every failure of the LLM collaborator —
transport error, empty content, malformed JSON, or an action-type string
outside the enum (a raised `ValueError`) — makes `analyze_message` return
the fallback intent: kind Conversation, confidence `0.5`, empty parameters
and the apologetic rephrase reply; the failure is returned as a value, never
re-raised to the engine. -/
theorem claim8_classifier_fallback (history : List Turn) (t : Turn)
    (llm : LLMOutcome) (hlast : history.getLast? = some t)
    (hfail : llmFailure llm) :
    analyze_message history llm =
      ({ action_type := .conversation, confidence := 1/2, parameters := {},
         raw_message := t.content, user_response := fallbackReply }, "") := by
  cases llm with
  | transportError e => simp [analyze_message, hlast]
  | emptyContent => simp [analyze_message, hlast]
  | malformedJson r => simp [analyze_message, hlast]
  | parsedJson raw at? conf? params? ur? =>
    have hat : actionTypeOfString (at?.getD "unknown") = none := hfail
    simp [analyze_message, hlast, hat]

/-- Witness for C8 at a one-turn history and an empty LLM reply. -/
theorem claim8_classifier_fallback_witness :
    ([⟨"user", "hi"⟩] : List Turn).getLast? = some ⟨"user", "hi"⟩ ∧
    llmFailure .emptyContent ∧
    analyze_message [⟨"user", "hi"⟩] .emptyContent =
      ({ action_type := .conversation, confidence := 1/2, parameters := {},
         raw_message := "hi", user_response := fallbackReply }, "") :=
  ⟨rfl, trivial,
    claim8_classifier_fallback [⟨"user", "hi"⟩] ⟨"user", "hi"⟩ .emptyContent
      rfl trivial⟩

/-! ### C9: freshness and unpredictability of action identifiers -/

/-- C9 counterexample: the claim says any two pending-action creations —
including two submissions of the same text by the same user — produce
distinct identifiers drawn from a source of randomness; but the message
agent (`src/agent_special.py`) derives the id deterministically as
`f"{user_id}_{type}_{hash(raw_message)}"`, so resubmitting the identical
message yields the identical id (and the second registration overwrites the
first, leaving a single registry entry). -/
theorem claim9_fresh_id_cex :
    (process_critical_action [] demoStake "test_user_123" 12345).1.action_id =
      some (gen_action_id_det "test_user_123" .stake 12345) ∧
    (process_critical_action
        ((process_critical_action [] demoStake "test_user_123" 12345).2)
        demoStake "test_user_123" 12345).1.action_id =
      some (gen_action_id_det "test_user_123" .stake 12345) ∧
    ((process_critical_action
        ((process_critical_action [] demoStake "test_user_123" 12345).2)
        demoStake "test_user_123" 12345).2).length = 1 := by
  refine ⟨rfl, rfl, rfl⟩

/-- C9 (amended): the REST and standalone agents draw the id from
`os.urandom(4)`: the id is `user_id ++ "_" ++ hex(r)` — independent of the
message text — and two creations with distinct 32-bit draws always get
distinct identifiers (hex rendering is injective below `2^32`). -/
theorem claim9_fresh_id_amended (pending : Registry) (a : ParsedAction)
    (u : String) (r₁ r₂ : Nat) (h₁ : r₁ < 2 ^ 32) (h₂ : r₂ < 2 ^ 32)
    (hne : r₁ ≠ r₂) (hkind : ¬ a.action_type = .balance) :
    gen_action_id u r₁ ≠ gen_action_id u r₂ ∧
    (process_action pending a u r₁).1.action_id = some (gen_action_id u r₁) ∧
    (process_action pending a u r₂).1.action_id = some (gen_action_id u r₂) ∧
    (process_action pending a u r₁).1.action_id ≠
      (process_action pending a u r₂).1.action_id := by
  have hid : gen_action_id u r₁ ≠ gen_action_id u r₂ :=
    fun h => hne (gen_action_id_inj u r₁ r₂ h₁ h₂ h)
  have p1 : (process_action pending a u r₁).1.action_id =
      some (gen_action_id u r₁) := by
    show (if a.action_type = .balance then _ else _ : ActionResponse × Registry).1.action_id = _
    rw [if_neg hkind]
  have p2 : (process_action pending a u r₂).1.action_id =
      some (gen_action_id u r₂) := by
    show (if a.action_type = .balance then _ else _ : ActionResponse × Registry).1.action_id = _
    rw [if_neg hkind]
  refine ⟨hid, p1, p2, ?_⟩
  rw [p1, p2]
  intro h
  exact hid (Option.some_inj.mp h)

/-- Witness for C9 (amended): draws `0` and `1` give distinct ids. -/
theorem claim9_fresh_id_amended_witness :
    (0 : Nat) < 2 ^ 32 ∧ (1 : Nat) < 2 ^ 32 ∧
    gen_action_id "u1" 0 ≠ gen_action_id "u1" 1 :=
  ⟨by norm_num, by norm_num,
    (claim9_fresh_id_amended [] demoStake "u1" 0 1 (by norm_num) (by norm_num)
      (by decide) (by decide)).1⟩

end FlowAgent
